import Mathlib

/-!
Verification of the blackjack game engine in `oop_bj.py`.

The Python source is shallowly embedded: pure methods become Lean
functions, mutation becomes explicit state passing, `random.shuffle`
is parameterized by a permutation of the card positions, console
input (`ask_bet`, hit/stand questions) becomes explicit input
parameters, and Python exceptions become `Except` results carrying
the object state at the moment the exception is raised.
-/

namespace Blackjack

/-- `State = Enum("State", "IDLE ACTIVE STAND BUST")`. -/
inductive State where
  | IDLE
  | ACTIVE
  | STAND
  | BUST
deriving DecidableEq

/-- The thirteen card ranks, the `values` tuple of `build_deck`:
`("2","3","4","5","6","7","8","9","10","J","Q","K","A")`. -/
inductive Rank where
  | two
  | three
  | four
  | five
  | six
  | seven
  | eight
  | nine
  | ten
  | jack
  | queen
  | king
  | ace
deriving DecidableEq, Fintype

/-- The four suits, the `suits` tuple of `build_deck`:
`("Hearts","Clubs","Diamonds","Spades")`. -/
inductive Suit where
  | hearts
  | clubs
  | diamonds
  | spades
deriving DecidableEq, Fintype

/-- `class Card`: immutable value with a rank (`value`) and a suit. -/
structure Card where
  value : Rank
  suit : Suit
deriving DecidableEq

/-- `Card.score`: J/Q/K score 10, A scores 1, numeric ranks score
themselves (`int(self.value)`). -/
def Card.score (c : Card) : Nat :=
  match c.value with
  | Rank.jack | Rank.queen | Rank.king => 10
  | Rank.ace => 1
  | Rank.two => 2
  | Rank.three => 3
  | Rank.four => 4
  | Rank.five => 5
  | Rank.six => 6
  | Rank.seven => 7
  | Rank.eight => 8
  | Rank.nine => 9
  | Rank.ten => 10

/-- The `values` tuple of `build_deck`, in source order. -/
def rankList : List Rank :=
  [Rank.two, Rank.three, Rank.four, Rank.five, Rank.six, Rank.seven,
   Rank.eight, Rank.nine, Rank.ten, Rank.jack, Rank.queen, Rank.king,
   Rank.ace]

/-- The `suits` tuple of `build_deck`, in source order. -/
def suitList : List Suit :=
  [Suit.hearts, Suit.clubs, Suit.diamonds, Suit.spades]

/-- `build_deck()`: one card per `(value, suit)` of
`product(values, suits)` — the suit cycles fastest. -/
def build_deck : List Card :=
  rankList.flatMap fun v => suitList.map fun s => { value := v, suit := s }

/-- Errors of the engine.  `InsufficientFunds` is the exception raised
by `Player.player_bet` for a broke player; `EmptyShoe` is the spec's
name for the `IndexError` that `list.pop()` raises on an empty list. -/
inductive GameError where
  | InsufficientFunds
  | EmptyShoe
deriving DecidableEq

/-- `class Shoe`: a mutable ordered collection of cards; the `cards`
attribute defaults to `build_deck()`. -/
structure Shoe where
  cards : List Card
deriving DecidableEq

/-- `Shoe()` with the default factory: a fresh unshuffled deck. -/
def Shoe.new : Shoe := ⟨build_deck⟩

/-- `Shoe.shuffle`: `random.shuffle(self.cards)` permutes the cards in
place; the random outcome is modelled as an explicit permutation `σ`
of the card positions. -/
def Shoe.shuffle (s : Shoe) (σ : Equiv.Perm (Fin s.cards.length)) : Shoe :=
  ⟨List.ofFn fun i => s.cards.get (σ i)⟩

/-- `Shoe.draw_card`: `self.cards.pop()` removes and returns the last
(top) card; popping an empty list raises (`EmptyShoe`). -/
def Shoe.draw_card (s : Shoe) : Except GameError (Card × Shoe) :=
  match s.cards.getLast? with
  | none => Except.error GameError.EmptyShoe
  | some c => Except.ok (c, ⟨s.cards.dropLast⟩)

/-- Repeated `draw_card`, threading the shoe: the cards drawn by `n`
successive pops, or the error of the first failing pop. -/
def Shoe.drawN : Nat → Shoe → Except GameError (List Card × Shoe)
  | 0, s => Except.ok ([], s)
  | n + 1, s =>
    match s.draw_card with
    | Except.error e => Except.error e
    | Except.ok (c, s2) =>
      match Shoe.drawN n s2 with
      | Except.error e => Except.error e
      | Except.ok (cs, s3) => Except.ok (c :: cs, s3)

/-- `class Hand`: an ordered collection of cards. -/
structure Hand where
  cards : List Card
deriving DecidableEq

/-- `Hand.add`: appends the card at the end. -/
def Hand.add (h : Hand) (c : Card) : Hand := ⟨h.cards ++ [c]⟩

/-- `Hand.score`: sum of the card scores, plus 10 when the hand holds
an Ace and the raw total is at most 11. -/
def Hand.score (h : Hand) : Nat :=
  let total := (h.cards.map Card.score).sum
  if (h.cards.any fun c => c.value == Rank.ace) ∧ total ≤ 11 then total + 10
  else total

/-- `class Player`: budget, current bet (`None` until placed), hand and
state, with the source's default values. -/
structure Player where
  budget : Int
  bet : Option Int := none
  hand : Hand := ⟨[]⟩
  state : State := State.IDLE
deriving DecidableEq

/-- `Player.is_busted`. -/
def Player.is_busted (p : Player) : Bool := p.state == State.BUST

/-- `Player.is_standing`. -/
def Player.is_standing (p : Player) : Bool := p.state == State.STAND

/-- `Player.is_idle`. -/
def Player.is_idle (p : Player) : Bool := p.state == State.IDLE

/-- `Player.is_broke`: `self.budget == 0`. -/
def Player.is_broke (p : Player) : Bool := p.budget == 0

/-- `Player.update`: recompute the state from the hand score — over 21
BUST, exactly 21 STAND, otherwise ACTIVE. -/
def Player.update (p : Player) : Player :=
  let hand_score := p.hand.score
  if hand_score > 21 then { p with state := State.BUST }
  else if hand_score = 21 then { p with state := State.STAND }
  else { p with state := State.ACTIVE }

/-- `ask_bet(budget)`: loop over the user's console entries until one
satisfies `budget >= cash_bet > 0` and return it.  The entries are
modelled as a list of integers (a non-integer entry parses to `-1` in
the source and is covered by a `-1` list element); `none` means no
entry was ever accepted (the Python loop never returns). -/
def ask_bet (budget : Int) : List Int → Option Int
  | [] => none
  | a :: rest => if budget ≥ a ∧ a > 0 then some a else ask_bet budget rest

/-- `Player.player_bet`: raise `InsufficientFunds` when broke,
otherwise `self.bet = ask_bet(self.budget)`. -/
def Player.player_bet (p : Player) (inputs : List Int) :
    Except GameError (Option Player) :=
  if p.is_broke then Except.error GameError.InsufficientFunds
  else Except.ok ((ask_bet p.budget inputs).map fun amt => { p with bet := some amt })

/-- `class Dealer`: shoe, hand, state and stopping threshold, with the
source's default values (`Shoe()`, empty hand, IDLE, 17). -/
structure Dealer where
  shoe : Shoe := Shoe.new
  hand : Hand := ⟨[]⟩
  state : State := State.IDLE
  MINIMUM_SCORE : Nat := 17
deriving DecidableEq

/-- `Dealer.draw_card`: delegate to the shoe. -/
def Dealer.draw_card (d : Dealer) : Except GameError (Card × Dealer) :=
  match d.shoe.draw_card with
  | Except.error e => Except.error e
  | Except.ok (c, s) => Except.ok (c, { d with shoe := s })

/-- `Dealer.hit`: draw a card and add it to the dealer's hand. -/
def Dealer.hit (d : Dealer) : Except GameError Dealer :=
  match d.draw_card with
  | Except.error e => Except.error e
  | Except.ok (c, d2) => Except.ok { d2 with hand := d2.hand.add c }

/-- `Dealer.update`: over 21 BUST, at least `MINIMUM_SCORE` STAND,
otherwise ACTIVE. -/
def Dealer.update (d : Dealer) : Dealer :=
  let hand_score := d.hand.score
  if hand_score > 21 then { d with state := State.BUST }
  else if hand_score ≥ d.MINIMUM_SCORE then { d with state := State.STAND }
  else { d with state := State.ACTIVE }

/-- `Dealer.is_busted`. -/
def Dealer.is_busted (d : Dealer) : Bool := d.state == State.BUST

/-- `Dealer.is_standing`. -/
def Dealer.is_standing (d : Dealer) : Bool := d.state == State.STAND

/-- `Dealer.is_idle`. -/
def Dealer.is_idle (d : Dealer) : Bool := d.state == State.IDLE

/-- `Dealer.play`: hit and update while below the threshold, otherwise
do nothing. -/
def Dealer.play (d : Dealer) : Except GameError Dealer :=
  if d.hand.score < d.MINIMUM_SCORE then
    match d.hit with
    | Except.error e => Except.error e
    | Except.ok d2 => Except.ok d2.update
  else Except.ok d

/-- `Player.hit`: ask the dealer for a card and add it to the hand. -/
def Player.hit (p : Player) (d : Dealer) :
    Except GameError (Player × Dealer) :=
  match d.draw_card with
  | Except.error e => Except.error e
  | Except.ok (c, d2) => Except.ok ({ p with hand := p.hand.add c }, d2)

/-- `Player.play`: on a yes answer to "Do you want to hit", hit and
update; on a no answer, stand.  The console answer is the `hit`
parameter. -/
def Player.play (p : Player) (d : Dealer) (hit : Bool) :
    Except GameError (Player × Dealer) :=
  if hit then
    match p.hit d with
    | Except.error e => Except.error e
    | Except.ok (p2, d2) => Except.ok (p2.update, d2)
  else Except.ok ({ p with state := State.STAND }, d)

/-- `class Game`: the round controller over one player and one
dealer. -/
structure Game where
  player : Player
  dealer : Dealer
deriving DecidableEq

/-- `Game.reset_attributes`: empty both hands, set both states to
IDLE, replace the dealer's shoe with a fresh `Shoe()`. -/
def Game.reset_attributes (g : Game) : Game :=
  { g with
    player := { g.player with hand := ⟨[]⟩, state := State.IDLE },
    dealer := { g.dealer with hand := ⟨[]⟩, state := State.IDLE, shoe := Shoe.new } }

/-- `Game.is_finished`: `return True` when the dealer's hand scores at
least 21 or the player is busted or standing; otherwise the Python
function falls through and returns `None`, modelled as `none`. -/
def Game.is_finished (g : Game) : Option Bool :=
  if g.dealer.hand.score ≥ 21 then some true
  else if g.player.is_busted || g.player.is_standing then some true
  else none

/-- `Game.close`: pay or charge the player.  A busted player loses the
bet; against a busted dealer the player wins the bet; otherwise the
hand scores are compared and the higher one wins, a tie changing
nothing.  `none` models the `TypeError` of `budget -= None` when no
bet was ever placed. -/
def Game.close (g : Game) : Option Game :=
  g.player.bet.map fun bet =>
    let dealer_score := g.dealer.hand.score
    if !g.player.is_busted then
      if g.dealer.state == State.BUST then
        { g with player := { g.player with budget := g.player.budget + bet } }
      else
        if g.player.hand.score < dealer_score then
          { g with player := { g.player with budget := g.player.budget - bet } }
        else if g.player.hand.score > dealer_score then
          { g with player := { g.player with budget := g.player.budget + bet } }
        else g
    else { g with player := { g.player with budget := g.player.budget - bet } }

/-- `Game.open`: collect the bet (raising `InsufficientFunds` for a
broke player before anything is touched), shuffle the shoe, deal two
cards to the player and update it, then two cards to the dealer and
update it.  An error carries the game state at the moment the Python
exception is raised; `Except.ok none` models the bet prompt never
returning. -/
def Game.«open» (g : Game) (inputs : List Int)
    (σ : Equiv.Perm (Fin g.dealer.shoe.cards.length)) :
    Except (GameError × Game) (Option Game) :=
  match g.player.player_bet inputs with
  | Except.error e => Except.error (e, g)
  | Except.ok none => Except.ok none
  | Except.ok (some p1) =>
    let d1 : Dealer := { g.dealer with shoe := g.dealer.shoe.shuffle σ }
    match d1.draw_card with
    | Except.error e => Except.error (e, { player := p1, dealer := d1 })
    | Except.ok (c1, d2) =>
      match d2.draw_card with
      | Except.error e => Except.error (e, { player := p1, dealer := d2 })
      | Except.ok (c2, d3) =>
        let p2 := Player.update { p1 with hand := ⟨[c1, c2]⟩ }
        match d3.draw_card with
        | Except.error e => Except.error (e, { player := p2, dealer := d3 })
        | Except.ok (c3, d4) =>
          match d4.draw_card with
          | Except.error e => Except.error (e, { player := p2, dealer := d4 })
          | Except.ok (c4, d5) =>
            Except.ok (some { player := p2,
                              dealer := Dealer.update { d5 with hand := ⟨[c3, c4]⟩ } })

/-- A concrete busted player hand (K, Q, 5 — scores 25). -/
def handPW : Hand :=
  ⟨[⟨Rank.king, Suit.hearts⟩, ⟨Rank.queen, Suit.hearts⟩, ⟨Rank.five, Suit.hearts⟩]⟩

/-- A concrete standing dealer hand (10, 9 — scores 19). -/
def handDW : Hand := ⟨[⟨Rank.ten, Suit.clubs⟩, ⟨Rank.nine, Suit.clubs⟩]⟩

/-- A concrete game at the close of a round: the player busted on a
100 bet against a standing dealer. -/
def gameW : Game :=
  { player := { budget := 500, bet := some 100, hand := handPW, state := State.BUST },
    dealer := { hand := handDW, state := State.STAND } }

/-- C2: for every hand, `Hand.score` is the sum of the cards' point
values, plus a single +10 adjustment applied iff the hand contains an
Ace and the unadjusted sum is at most 11; `[A, 9]` scores 20 and
`[A, A, 9]` scores 21. -/
theorem hand_score_spec :
    (∀ h : Hand,
      h.score =
        (h.cards.map Card.score).sum +
          (if (∃ c ∈ h.cards, c.value = Rank.ace) ∧ (h.cards.map Card.score).sum ≤ 11
           then 10 else 0)) ∧
    Hand.score ⟨[⟨Rank.ace, Suit.hearts⟩, ⟨Rank.nine, Suit.hearts⟩]⟩ = 20 ∧
    Hand.score ⟨[⟨Rank.ace, Suit.hearts⟩, ⟨Rank.ace, Suit.clubs⟩,
                 ⟨Rank.nine, Suit.hearts⟩]⟩ = 21 := by
  refine ⟨fun h => ?_, by decide, by decide⟩
  unfold Hand.score
  simp only [List.any_eq_true, beq_iff_eq]
  split_ifs <;> omega

/-- C3: after `update()` the participant state is a pure function of
the hand score, independent of the prior state: a player goes BUST
above 21, STANDs at exactly 21 and is ACTIVE below; a dealer with the
default threshold 17 goes BUST above 21, STANDs from 17 up and is
ACTIVE below. -/
theorem participant_update_spec :
    (∀ (p : Player) (s : State), Player.update { p with state := s } = p.update) ∧
    (∀ p : Player,
      p.update.state =
        (if 21 < p.hand.score then State.BUST
         else if p.hand.score = 21 then State.STAND
         else State.ACTIVE)) ∧
    (∀ (d : Dealer) (s : State), Dealer.update { d with state := s } = d.update) ∧
    (∀ d : Dealer, d.MINIMUM_SCORE = 17 →
      d.update.state =
        (if 21 < d.hand.score then State.BUST
         else if 17 ≤ d.hand.score then State.STAND
         else State.ACTIVE)) := by
  refine ⟨fun p s => ?_, fun p => ?_, fun d s => ?_, fun d h17 => ?_⟩
  · unfold Player.update
    dsimp only
  · unfold Player.update
    dsimp only
    split_ifs <;> rfl
  · unfold Dealer.update
    dsimp only
  · unfold Dealer.update
    dsimp only
    rw [h17]
    split_ifs <;> rfl

/-- Witness for C3: a fresh dealer has the default threshold 17 and an
empty hand scoring 0, so `update()` makes it ACTIVE. -/
theorem participant_update_spec_witness :
    Dealer.update {} = ({ state := State.ACTIVE } : Dealer) ∧
    (Dealer.update {}).state =
      (if 21 < ({} : Dealer).hand.score then State.BUST
       else if 17 ≤ ({} : Dealer).hand.score then State.STAND
       else State.ACTIVE) :=
  ⟨by decide, participant_update_spec.2.2.2 {} rfl⟩

/-- C8: `reset_attributes` empties both hands, sets both states to
IDLE, installs a fresh unshuffled 52-card shoe, and leaves the
player's budget and bet untouched. -/
theorem reset_attributes_spec :
    ∀ g : Game,
      (g.reset_attributes).player.hand.cards = [] ∧
      (g.reset_attributes).player.state = State.IDLE ∧
      (g.reset_attributes).dealer.hand.cards = [] ∧
      (g.reset_attributes).dealer.state = State.IDLE ∧
      (g.reset_attributes).dealer.shoe = Shoe.new ∧
      (g.reset_attributes).dealer.shoe.cards.length = 52 ∧
      (g.reset_attributes).player.budget = g.player.budget ∧
      (g.reset_attributes).player.bet = g.player.bet := by
  intro g
  exact ⟨rfl, rfl, rfl, rfl, rfl, rfl, rfl, rfl⟩

/-- The shuffled card list is a permutation (as a multiset) of the
original card list. -/
lemma shuffle_cards_perm (s : Shoe) (σ : Equiv.Perm (Fin s.cards.length)) :
    List.Perm (s.shuffle σ).cards s.cards := by
  show List.Perm (List.ofFn fun i => s.cards.get (σ i)) s.cards
  have h1 : (List.ofFn fun i => s.cards.get (σ i)) =
      ((List.finRange s.cards.length).map σ).map s.cards.get := by
    rw [List.ofFn_eq_map, List.map_map]
    rfl
  have h2 : List.Perm ((List.finRange s.cards.length).map σ)
      (List.finRange s.cards.length) := by
    apply List.perm_of_nodup_nodup_toFinset_eq
    · exact (List.nodup_finRange _).map σ.injective
    · exact List.nodup_finRange _
    · ext x
      simp only [List.mem_toFinset, List.mem_map, List.mem_finRange, true_and, iff_true]
      exact ⟨σ.symm x, σ.apply_symm_apply x⟩
  have h3 : List.Perm ((List.finRange s.cards.length).map s.cards.get) s.cards := by
    rw [← List.ofFn_eq_map, List.ofFn_get]
  rw [h1]
  exact (h2.map s.cards.get).trans h3

/-- C4: a fresh shoe holds exactly 52 cards, one for each of the 13×4
distinct (rank, suit) pairs, and shuffling leaves the multiset of
cards unchanged. -/
theorem deck_build_and_shuffle_perm :
    build_deck.length = 52 ∧
    build_deck.Nodup ∧
    (∀ (v : Rank) (s : Suit), ({ value := v, suit := s } : Card) ∈ build_deck) ∧
    Shoe.new.cards = build_deck ∧
    ∀ (s : Shoe) (σ : Equiv.Perm (Fin s.cards.length)),
      List.Perm (s.shuffle σ).cards s.cards :=
  ⟨by decide, by decide, by decide, rfl, shuffle_cards_perm⟩

/-- C5: `draw_card` removes and returns the last (top) card of the
shoe; 52 draws from a fresh shoe succeed, empty the shoe and never
repeat a card; the 53rd draw fails with `EmptyShoe`. -/
theorem draw_card_spec :
    (∀ (l : List Card) (c : Card),
      Shoe.draw_card ⟨l ++ [c]⟩ = Except.ok (c, ⟨l⟩)) ∧
    (∃ cs : List Card,
      Shoe.drawN 52 Shoe.new = Except.ok (cs, ⟨[]⟩) ∧
      cs.Nodup ∧ cs.length = 52) ∧
    Shoe.drawN 53 Shoe.new = Except.error GameError.EmptyShoe := by
  refine ⟨fun l c => ?_, ⟨build_deck.reverse, rfl, by decide, by decide⟩, rfl⟩
  unfold Shoe.draw_card
  rw [List.getLast?_concat, List.dropLast_concat]

/-- C9 counterexample: on a freshly constructed game neither finishing
condition holds, yet `is_finished` does not return the boolean `False`
— the Python function falls through and returns `None`. -/
theorem is_finished_counterexample :
    ({ player := { budget := 1000 }, dealer := {} } : Game).dealer.hand.score < 21 ∧
    ({ player := { budget := 1000 }, dealer := {} } : Game).player.state ≠ State.BUST ∧
    ({ player := { budget := 1000 }, dealer := {} } : Game).player.state ≠ State.STAND ∧
    ({ player := { budget := 1000 }, dealer := {} } : Game).is_finished ≠ some false ∧
    ({ player := { budget := 1000 }, dealer := {} } : Game).is_finished = none := by
  decide

/-- C9 amended: `is_finished` returns `True` exactly when the dealer's
hand scores at least 21 or the player is BUST or STAND; in every other
game state it returns `None` (falsy, but not the boolean `False`), and
it never returns `False`. -/
theorem is_finished_amended_spec :
    ∀ g : Game,
      (g.is_finished = some true ↔
        (21 ≤ g.dealer.hand.score ∨
          g.player.state = State.BUST ∨ g.player.state = State.STAND)) ∧
      (g.is_finished = none ↔
        ¬(21 ≤ g.dealer.hand.score ∨
          g.player.state = State.BUST ∨ g.player.state = State.STAND)) ∧
      g.is_finished ≠ some false := by
  intro g
  unfold Game.is_finished Player.is_busted Player.is_standing
  split_ifs with h1 h2 <;>
    simp_all [Bool.or_eq_true, beq_iff_eq]

/-- C1: closing a round with bet `b` resolves the payout — a busted
player loses `b`; otherwise a busted dealer pays `b` (even money); when
neither is busted the higher hand score wins `b` and a tie changes
nothing. -/
theorem close_payout_resolution (g : Game) (b : Int)
    (hb : g.player.bet = some b) :
    ∃ g2, g.close = some g2 ∧
      g2.player.budget =
        (if g.player.state = State.BUST then g.player.budget - b
         else if g.dealer.state = State.BUST then g.player.budget + b
         else if g.dealer.hand.score < g.player.hand.score then g.player.budget + b
         else if g.player.hand.score < g.dealer.hand.score then g.player.budget - b
         else g.player.budget) := by
  unfold Game.close
  rw [hb]
  simp only [Option.map_some']
  refine ⟨_, rfl, ?_⟩
  simp only [Player.is_busted, Bool.not_eq_true', beq_eq_false_iff_ne, ne_eq, beq_iff_eq]
  split_ifs <;> first | rfl | omega

/-- Witness for C1: a busted player with a 100 bet loses 100. -/
theorem close_payout_resolution_witness :
    ∃ g2, gameW.close = some g2 ∧
      g2.player.budget =
        (if gameW.player.state = State.BUST then gameW.player.budget - 100
         else if gameW.dealer.state = State.BUST then gameW.player.budget + 100
         else if gameW.dealer.hand.score < gameW.player.hand.score then
           gameW.player.budget + 100
         else if gameW.player.hand.score < gameW.dealer.hand.score then
           gameW.player.budget - 100
         else gameW.player.budget) :=
  close_payout_resolution gameW 100 rfl

/-- C6: opening a round for a broke player (budget 0) fails with
`InsufficientFunds` and leaves the entire game state unchanged — the
error carries exactly the input state. -/
theorem open_broke_player_spec (g : Game) (inputs : List Int)
    (σ : Equiv.Perm (Fin g.dealer.shoe.cards.length))
    (h0 : g.player.budget = 0) :
    Game.«open» g inputs σ = Except.error (GameError.InsufficientFunds, g) := by
  unfold Game.«open» Player.player_bet Player.is_broke
  rw [h0]
  rfl

/-- Witness for C6: a concrete broke player. -/
theorem open_broke_player_spec_witness :
    Game.«open» { player := { budget := 0 }, dealer := {} } [] (Equiv.refl _) =
      Except.error (GameError.InsufficientFunds,
        { player := { budget := 0 }, dealer := {} }) :=
  open_broke_player_spec { player := { budget := 0 }, dealer := {} } []
    (Equiv.refl _) rfl

/-- C7: the betting loop accepts an entry exactly when
`0 < amount ≤ budget`; a rejected entry changes nothing — the loop
(and `player_bet` around it) behaves as if the invalid entry had never
been made, and the next entry is considered. -/
theorem bet_validation_spec :
    (∀ (budget a : Int) (rest : List Int),
      ((0 < a ∧ a ≤ budget) → ask_bet budget (a :: rest) = some a) ∧
      (¬(0 < a ∧ a ≤ budget) → ask_bet budget (a :: rest) = ask_bet budget rest)) ∧
    (∀ (p : Player) (a : Int) (rest : List Int), ¬(0 < a ∧ a ≤ p.budget) →
      p.player_bet (a :: rest) = p.player_bet rest) ∧
    (∀ (budget a : Int), ask_bet budget [a] = some a ↔ (0 < a ∧ a ≤ budget)) := by
  have hskip : ∀ (budget a : Int) (rest : List Int), ¬(0 < a ∧ a ≤ budget) →
      ask_bet budget (a :: rest) = ask_bet budget rest := by
    intro budget a rest h
    show (if budget ≥ a ∧ a > 0 then some a else ask_bet budget rest) = _
    rw [if_neg (by omega)]
  refine ⟨fun budget a rest => ⟨fun h => ?_, hskip budget a rest⟩,
    fun p a rest h => ?_, fun budget a => ⟨fun h => ?_, fun h => ?_⟩⟩
  · show (if budget ≥ a ∧ a > 0 then some a else ask_bet budget rest) = some a
    rw [if_pos ⟨h.2, h.1⟩]
  · unfold Player.player_bet
    rw [hskip p.budget a rest h]
  · by_cases hc : 0 < a ∧ a ≤ budget
    · exact hc
    · rw [hskip budget a [] hc] at h
      exact Option.noConfusion h
  · show (if budget ≥ a ∧ a > 0 then some a else ask_bet budget []) = some a
    rw [if_pos ⟨h.2, h.1⟩]

/-- Witness for C7: with budget 50, the invalid entry 100 is skipped
and the valid entry 30 is then accepted. -/
theorem bet_validation_spec_witness :
    ask_bet 50 [100, 30] = ask_bet 50 [30] ∧ ask_bet 50 [30] = some 30 :=
  ⟨(bet_validation_spec.1 50 100 [30]).2 (by decide), by decide⟩

/-- C10: `update()` always lands in {ACTIVE, STAND, BUST}, never IDLE
— likewise a player turn (`play`), which either updates or stands;
IDLE holds exactly for a freshly constructed participant and is
re-entered by `reset_attributes`. -/
theorem no_idle_after_update :
    (∀ p : Player, p.update.state ≠ State.IDLE) ∧
    (∀ d : Dealer, d.update.state ≠ State.IDLE) ∧
    (∀ (p p2 : Player) (d d2 : Dealer) (hit : Bool),
      p.play d hit = Except.ok (p2, d2) → p2.state ≠ State.IDLE) ∧
    (∀ b : Int, ({ budget := b } : Player).state = State.IDLE) ∧
    ({} : Dealer).state = State.IDLE ∧
    (∀ g : Game, (g.reset_attributes).player.state = State.IDLE ∧
      (g.reset_attributes).dealer.state = State.IDLE) := by
  have hp : ∀ p : Player, p.update.state ≠ State.IDLE := by
    intro p
    unfold Player.update
    dsimp only
    split_ifs <;> simp
  have hd : ∀ d : Dealer, d.update.state ≠ State.IDLE := by
    intro d
    unfold Dealer.update
    dsimp only
    split_ifs <;> simp
  refine ⟨hp, hd, ?_, fun b => rfl, rfl, fun g => ⟨rfl, rfl⟩⟩
  intro p p2 d d2 hit h
  cases hit
  · unfold Player.play at h
    simp only [Bool.false_eq_true, if_false, Except.ok.injEq, Prod.mk.injEq] at h
    rw [← h.1]
    simp
  · unfold Player.play at h
    simp only [if_true] at h
    cases hdraw : p.hit d with
    | error e =>
      rw [hdraw] at h
      exact Except.noConfusion h
    | ok pd =>
      obtain ⟨p3, d3⟩ := pd
      rw [hdraw] at h
      simp only [Except.ok.injEq, Prod.mk.injEq] at h
      rw [← h.1]
      exact hp p3

/-- Witness for C10: hitting from a full fresh shoe draws the Ace of
Spades; the resulting player state is ACTIVE, not IDLE. -/
theorem no_idle_after_update_witness :
    ({ budget := 1000, hand := ⟨[⟨Rank.ace, Suit.spades⟩]⟩,
       state := State.ACTIVE } : Player).state ≠ State.IDLE :=
  no_idle_after_update.2.2.1 { budget := 1000 }
    { budget := 1000, hand := ⟨[⟨Rank.ace, Suit.spades⟩]⟩, state := State.ACTIVE }
    {} { shoe := ⟨build_deck.dropLast⟩ } true rfl

end Blackjack
